import Mathlib

/-!
Verification of the core of the `backup` program (src/main.c): the PathCursor
operations, the timestamp-based copy decision, the byte-comparison fallback,
and the recursive mirror walk with its statistics accounting.

The C code is shallowly embedded:
* `Path` mirrors `struct Path { char path[MAX_PATH]; int top; }`; the fixed
  `char[MAX_PATH]` buffer is a `List Char` whose length is `MAX_PATH` (stated
  as an invariant where needed), and the C `int top` is a `Nat` (the program
  only ever uses non-negative values of `top`; the pop operations carry the
  precondition `1 ≤ top` under which the C `top--` never goes negative).
* C strings (`const char*` arguments, `cFileName`) are `List Char` values
  holding the characters before the NUL terminator.
* `ULONGLONG` FILETIME values are `Nat` (the C code only compares and
  subtracts the smaller from the larger, so no wrap-around occurs).
* The C `int` statistics counters are unbounded `Int` (overflow is out of
  scope).
* Win32 calls are replaced by their observed results: `GetLastError` after
  `CreateDirectoryA` is a `Nat` error code, `FindFirstFileA`/`FindNextFileA`
  give an optional entry list, `GetFileAttributesExA` gives an optional
  last-write timestamp (absent file = `none`, matching the zeroed
  `WIN32_FILE_ATTRIBUTE_DATA`), `CopyFileA` gives a success flag plus a
  `GetLastError` code, and `CreateFileA`/`ReadFile` for the fallback give an
  optional byte list per file.  The log file written through `Log_WriteMessage`
  is the `messages` list: one `LogMsg` per formatted message, carrying the
  data the format string interpolates.
-/

namespace Backup

set_option maxRecDepth 400000

/-- Windows `MAX_PATH`, the size of both `Path` buffers in `struct Path`. -/
def MAX_PATH : Nat := 260

/-- The NUL character `'\0'` used by the C code to clear buffer bytes. -/
def nulChar : Char := Char.ofNat 0

/-- Windows `ERROR_PATH_NOT_FOUND` (3), the only `GetLastError` value after
`CreateDirectoryA` that makes `BackupDirectoryRecursively` skip a subtree. -/
def ERROR_PATH_NOT_FOUND : Nat := 3

/-- Windows `ERROR_ACCESS_DENIED` (5), used to exercise the claim about a
denied directory creation. -/
def ERROR_ACCESS_DENIED : Nat := 5

/-- `sizeof(global_src_buffer)` = `sizeof(global_dst_buffer)` = 1024*1024,
the chunk size of the byte-by-byte fallback comparison. -/
def GLOBAL_BUFFER_SIZE : Nat := 1024 * 1024

/-- `struct Path`: a fixed `char[MAX_PATH]` buffer and the current length
`top`.  `path` is the whole buffer (length `MAX_PATH`), not just the prefix
in use. -/
structure Path where
  path : List Char
  top : Nat
deriving DecidableEq

/-- `Path_PushToPath` (main.c lines 80-87): append the C string `to_push`
character by character while `top < MAX_PATH`; characters that do not fit are
silently dropped.  The guard `c = nulChar` mirrors `to_push[i] != '\0'`
(the end of the embedded character list is the NUL terminator, so the guard
only matters for lists that contain an explicit NUL). -/
def Path_PushToPath (p : Path) (to_push : List Char) : Path :=
  match to_push with
  | [] => p
  | c :: rest =>
      if c = nulChar then p
      else if p.top < MAX_PATH then
        Path_PushToPath ⟨p.path.set p.top c, p.top + 1⟩ rest
      else p

/-- The shared scan-down loop of `Path_PopFullDir` and `Path_PopLastName`
(main.c lines 91-94 and 100-103): starting at index `t` (the already
decremented `top`), clear bytes to NUL and move down while the current byte is
not a backslash and the index is positive. -/
def popLoop : List Char → Nat → List Char × Nat
  | buf, 0 => (buf, 0)
  | buf, t + 1 =>
      if buf.getD (t + 1) nulChar ≠ '\\' then popLoop (buf.set (t + 1) nulChar) t
      else (buf, t + 1)

/-- `Path_PopFullDir` (main.c lines 89-96): drop the last path component and
its leading backslash, clearing the dropped bytes to NUL.  Precondition for
faithfulness to the C `int top--`: `1 ≤ top`. -/
def Path_PopFullDir (p : Path) : Path :=
  let r := popLoop p.path (p.top - 1)
  ⟨r.1.set r.2 nulChar, r.2⟩

/-- `Path_PopLastName` (main.c lines 98-105): drop the last path component but
keep the backslash, leaving `top` just after it so the next sibling name can
be pushed in place.  Precondition for faithfulness: `1 ≤ top`. -/
def Path_PopLastName (p : Path) : Path :=
  let r := popLoop p.path (p.top - 1)
  ⟨r.1, r.2 + 1⟩

/-- The first loop of `Path_PushSourceToDestination` (main.c lines 66-69):
scan down from `i` to the last backslash (or to 0). -/
def findBackslashLoop (buf : List Char) : Nat → Nat
  | 0 => 0
  | i + 1 =>
      if buf.getD (i + 1) nulChar ≠ '\\' then findBackslashLoop buf i
      else i + 1

/-- The second loop of `Path_PushSourceToDestination` (main.c lines 73-77):
copy `src.path[i]` for `i` up to `src.top` (exclusive) onto `dst` while
`dst.top < MAX_PATH`.  The C loop counts `i` up to `src_top`; here the
remaining count `k = src_top - i` is the (structurally decreasing) fuel, so
`k = 0` is exactly the C exit condition `i < src->top` failing. -/
def copyFromSourceLoop (srcbuf : List Char) : Nat → Nat → Path → Path
  | 0, _, dst => dst
  | k + 1, i, dst =>
      if dst.top < MAX_PATH then
        copyFromSourceLoop srcbuf k (i + 1)
          ⟨dst.path.set dst.top (srcbuf.getD i nulChar), dst.top + 1⟩
      else dst

/-- `Path_PushSourceToDestination` (main.c lines 61-78): append the last
component of `src` (from its final backslash) to `dst`. -/
def Path_PushSourceToDestination (src : Path) (dst : Path) : Path :=
  let i := findBackslashLoop src.path (src.top - 1)
  copyFromSourceLoop src.path (src.top - i) i dst

/-- `ShouldCopy` (main.c lines 107-139), after the two
`GetFileAttributesExA`/`memcpy` pairs have produced the two `ULARGE_INTEGER`
last-write times: copy exactly when the absolute difference exceeds
10 * 10000000 FILETIME ticks (10 seconds). -/
def ShouldCopy (src_ft dst_ft : Nat) : Bool :=
  let ten_seconds : Nat := 10 * 10000000
  let diff : Nat := if dst_ft < src_ft then src_ft - dst_ft else dst_ft - src_ft
  if ten_seconds < diff then true else false

/-- The value `memcpy` leaves in the zero-initialised `ULARGE_INTEGER` when
`GetFileAttributesExA` is called on a path: the file's last-write time, or 0
when the file does not exist and the zeroed `WIN32_FILE_ATTRIBUTE_DATA` is
copied unchanged (the NOTE at main.c lines 108-115). -/
def timestampOrZero : Option Nat → Nat
  | none => 0
  | some t => t

/-- `ShouldCopy` at the level of optional timestamps: `none` is a file that
does not exist, whose timestamp reads as 0. -/
def ShouldCopyFS (src_ts dst_ts : Option Nat) : Bool :=
  ShouldCopy (timestampOrZero src_ts) (timestampOrZero dst_ts)

/-- The do-while loop of `FileContentsAreTheSame` (main.c lines 166-187):
each iteration reads up to `GLOBAL_BUFFER_SIZE` bytes from each file
(`List.take` of what is left), fails if the read counts differ or the chunks
differ (`memcmp` over `src_bytes_read` bytes), and repeats while both reads
were non-empty. -/
def chunkCompare (src_rest dst_rest : List Nat) : Bool :=
  if (src_rest.take GLOBAL_BUFFER_SIZE).length ≠ (dst_rest.take GLOBAL_BUFFER_SIZE).length then
    false
  else if src_rest.take GLOBAL_BUFFER_SIZE ≠ dst_rest.take GLOBAL_BUFFER_SIZE then false
  else if 0 < (src_rest.take GLOBAL_BUFFER_SIZE).length ∧
      0 < (dst_rest.take GLOBAL_BUFFER_SIZE).length then
    chunkCompare (src_rest.drop GLOBAL_BUFFER_SIZE) (dst_rest.drop GLOBAL_BUFFER_SIZE)
  else true
termination_by src_rest.length
decreasing_by
  rename_i h3
  simp only [List.length_take, lt_min_iff, GLOBAL_BUFFER_SIZE] at h3
  simp only [List.length_drop, GLOBAL_BUFFER_SIZE]
  omega

/-- `FileContentsAreTheSame` (main.c lines 141-190).  A file a `CreateFileA`
open fails on is `none`; an opened file is `some` its byte contents, with
`GetFileSizeEx` giving the length. -/
def FileContentsAreTheSame (src dst : Option (List Nat)) : Bool :=
  match src, dst with
  | some src_file, some dst_file =>
      if src_file.length ≠ dst_file.length then false
      else chunkCompare src_file dst_file
  | _, _ => false

/-- One formatted message written through `Log_WriteMessage`, carrying the
data interpolated into the format string: the two directory error messages
carry the path they print, and the copy error message carries the
`GetLastError` code handed to `FormatMessage` plus the source path. -/
inductive LogMsg where
  | createDirError : List Char → LogMsg
  | listDirError : List Char → LogMsg
  | copyError : Nat → List Char → LogMsg
deriving DecidableEq

/-- `struct Log` (main.c lines 30-37).  The `HANDLE` is replaced by
`messages`, the sequence of messages written to the log file so far. -/
structure Log where
  files_checked_count : Int
  folders_checked_count : Int
  should_copy_count : Int
  copy_success_count : Int
  error_count : Int
  messages : List LogMsg
deriving DecidableEq

/-- The results of the host calls made for one file entry inside
`BackupDirectoryRecursively`: the two last-write times `ShouldCopy` reads
(`none` = file absent, read as 0), the `CopyFileA` result with its
`GetLastError` code, and the two byte contents `FileContentsAreTheSame`
would read (`none` = `CreateFileA` fails for that file). -/
structure FileData where
  srcTs : Option Nat
  dstTs : Option Nat
  copyOk : Bool
  copyLastError : Nat
  srcContent : Option (List Nat)
  dstContent : Option (List Nat)
deriving DecidableEq

mutual
/-- One directory of the source tree as the walk observes it: the
`GetLastError` value after `CreateDirectoryA` on the destination path, and
the enumeration `FindFirstFileA`/`FindNextFileA` yields (`none` =
`FindFirstFileA` returns `INVALID_HANDLE_VALUE`). -/
inductive DirNode : Type where
  | mk : Nat → Option EntryList → DirNode

/-- The sequence of `WIN32_FIND_DATA` records the do-while loop sees. -/
inductive EntryList : Type where
  | nil : EntryList
  | cons : FindData → EntryList → EntryList

/-- One `WIN32_FIND_DATA` record: the `FILE_ATTRIBUTE_DIRECTORY` bit,
`cFileName`, the per-file call results (used when it is a file), and the
subdirectory contents (used when it is a directory). -/
inductive FindData : Type where
  | mk : Bool → List Char → FileData → DirNode → FindData
end

/-- The `FILE_ATTRIBUTE_DIRECTORY` bit of an entry. -/
def FindData.isDirectory : FindData → Bool
  | .mk b _ _ _ => b

/-- The `cFileName` field of an entry. -/
def FindData.cFileName : FindData → List Char
  | .mk _ n _ _ => n

/-- The per-file host-call results of an entry. -/
def FindData.fileData : FindData → FileData
  | .mk _ _ f _ => f

/-- The subdirectory behind a directory entry. -/
def FindData.sub : FindData → DirNode
  | .mk _ _ _ s => s

/-- The C string a `%s` of `path->path` prints: the `top` characters in use
(under the NUL-tail invariant the rest of the buffer is NUL). -/
def pathCString (p : Path) : List Char := p.path.take p.top

/-- The string literal `"\\*"` pushed at main.c lines 213-214. -/
def backslashStar : List Char := ['\\', '*']

/-- The file branch of the walk loop (main.c lines 256-289): evaluate
`ShouldCopy`; if warranted, count it, attempt `CopyFileA`, and on failure run
`FileContentsAreTheSame` — identical contents undo the `should_copy_count`
increment, anything else logs the `FormatMessage`d reason with the source
path and counts an error; finally `files_checked_count` is always
incremented. -/
def processFile (f : FileData) (src _dst : Path) (log : Log) : Log :=
  let log1 :=
    if ShouldCopyFS f.srcTs f.dstTs then
      let log2 := { log with should_copy_count := log.should_copy_count + 1 }
      if !f.copyOk then
        if !FileContentsAreTheSame f.srcContent f.dstContent then
          { log2 with
            messages := log2.messages ++ [LogMsg.copyError f.copyLastError (pathCString src)],
            error_count := log2.error_count + 1 }
        else
          { log2 with should_copy_count := log2.should_copy_count - 1 }
      else
        { log2 with copy_success_count := log2.copy_success_count + 1 }
    else log
  { log1 with files_checked_count := log1.files_checked_count + 1 }

mutual
/-- `BackupDirectoryRecursively` (main.c lines 192-303).  The two cursors are
mutated in place in C; here the updated cursors are returned together with
the log.  The branch structure follows the C function line by line: the
`ERROR_PATH_NOT_FOUND` early return (196-209), the `"\\*"` pushes (213-214),
the `FindFirstFileA` early return (217-229), the entry loop (232-295), and
the tail `folders_checked_count++` plus the two `Path_PopFullDir`s
(299-302). -/
def BackupDirectoryRecursively : DirNode → Path → Path → Log → Path × Path × Log
  | .mk create_last_error listing, src, dst, log =>
      if create_last_error = ERROR_PATH_NOT_FOUND then
        (Path_PopFullDir src, Path_PopFullDir dst,
          { log with
            error_count := log.error_count + 1,
            messages := log.messages ++ [LogMsg.createDirError (pathCString dst)] })
      else
        match listing with
        | none =>
            (Path_PopFullDir (Path_PushToPath src backslashStar),
              Path_PopFullDir (Path_PushToPath dst backslashStar),
              { log with
                error_count := log.error_count + 1,
                messages := log.messages ++
                  [LogMsg.listDirError (pathCString (Path_PushToPath src backslashStar))] })
        | some entries =>
            let r := walkEntries entries
              (Path_PushToPath src backslashStar) (Path_PushToPath dst backslashStar) log
            (Path_PopFullDir r.1, Path_PopFullDir r.2.1,
              { r.2.2 with folders_checked_count := r.2.2.folders_checked_count + 1 })

/-- The do-while entry loop of `BackupDirectoryRecursively` (main.c lines
232-295), one `FindData` per iteration: `"."` and `".."` are skipped; any
other entry replaces the last name on both cursors
(`Path_PopLastName` + `Path_PushToPath`, lines 247-250) and is then either
recursed into (directory) or handed to the file branch. -/
def walkEntries : EntryList → Path → Path → Log → Path × Path × Log
  | .nil, src, dst, log => (src, dst, log)
  | .cons (.mk is_directory cFileName fdata sub) rest, src, dst, log =>
      if cFileName = ['.'] ∨ cFileName = ['.', '.'] then
        walkEntries rest src dst log
      else
        let src1 := Path_PushToPath (Path_PopLastName src) cFileName
        let dst1 := Path_PushToPath (Path_PopLastName dst) cFileName
        if is_directory then
          let r := BackupDirectoryRecursively sub src1 dst1 log
          walkEntries rest r.1 r.2.1 r.2.2
        else
          walkEntries rest src1 dst1 (processFile fdata src1 dst1 log)
end

mutual
/-- Step-indexed variant of `BackupDirectoryRecursively`: identical branch
structure, but every (mutually) recursive call consumes one unit of fuel and
exhausted fuel yields `none`.  It makes termination of the recursive walk an
observable statement: the walk terminates iff some finite fuel suffices. -/
def walkDirF : Nat → DirNode → Path → Path → Log → Option (Path × Path × Log)
  | 0, _, _, _, _ => none
  | n + 1, .mk create_last_error listing, src, dst, log =>
      if create_last_error = ERROR_PATH_NOT_FOUND then
        some (Path_PopFullDir src, Path_PopFullDir dst,
          { log with
            error_count := log.error_count + 1,
            messages := log.messages ++ [LogMsg.createDirError (pathCString dst)] })
      else
        match listing with
        | none =>
            some (Path_PopFullDir (Path_PushToPath src backslashStar),
              Path_PopFullDir (Path_PushToPath dst backslashStar),
              { log with
                error_count := log.error_count + 1,
                messages := log.messages ++
                  [LogMsg.listDirError (pathCString (Path_PushToPath src backslashStar))] })
        | some entries =>
            match walkEntriesF n entries
              (Path_PushToPath src backslashStar) (Path_PushToPath dst backslashStar) log with
            | none => none
            | some r =>
                some (Path_PopFullDir r.1, Path_PopFullDir r.2.1,
                  { r.2.2 with folders_checked_count := r.2.2.folders_checked_count + 1 })

/-- Step-indexed variant of `walkEntries`. -/
def walkEntriesF : Nat → EntryList → Path → Path → Log → Option (Path × Path × Log)
  | 0, _, _, _, _ => none
  | _ + 1, .nil, src, dst, log => some (src, dst, log)
  | n + 1, .cons (.mk is_directory cFileName fdata sub) rest, src, dst, log =>
      if cFileName = ['.'] ∨ cFileName = ['.', '.'] then
        walkEntriesF n rest src dst log
      else
        let src1 := Path_PushToPath (Path_PopLastName src) cFileName
        let dst1 := Path_PushToPath (Path_PopLastName dst) cFileName
        if is_directory then
          match walkDirF n sub src1 dst1 log with
          | none => none
          | some r => walkEntriesF n rest r.1 r.2.1 r.2.2
        else
          walkEntriesF n rest src1 dst1 (processFile fdata src1 dst1 log)
end

mutual
/-- Size of a directory tree, an upper bound on the recursion depth of the
walk: enough fuel for `walkDirF` to finish. -/
def sizeD : DirNode → Nat
  | .mk _ none => 1
  | .mk _ (some l) => sizeE l + 1

/-- Size of an entry list, see `sizeD`. -/
def sizeE : EntryList → Nat
  | .nil => 1
  | .cons f rest => sizeF f + sizeE rest + 1

/-- Size of a single entry, see `sizeD`. -/
def sizeF : FindData → Nat
  | .mk _ _ _ sub => sizeD sub + 1
end

/-- The counter chain of the spec:
`copy_success_count ≤ should_copy_count ≤ files_checked_count`. -/
def StatsInv (log : Log) : Prop :=
  log.copy_success_count ≤ log.should_copy_count ∧
  log.should_copy_count ≤ log.files_checked_count

/-- Well-formedness of a `Path` cursor: the buffer is the full
`char[MAX_PATH]` array, `top` is within it, and every byte at an index in
`[top, MAX_PATH)` is NUL — the unused tail of the buffer. -/
def PathInv (p : Path) : Prop :=
  p.path.length = MAX_PATH ∧ p.top ≤ MAX_PATH ∧
  ∀ i < MAX_PATH, p.top ≤ i → p.path.getD i nulChar = nulChar

/-- A well-formed cursor holding the path `s`: the buffer is `s` padded with
NULs to `MAX_PATH`, `top` is the length of `s`.  Used for concrete runs. -/
def mkPath (s : List Char) : Path :=
  ⟨s ++ List.replicate (MAX_PATH - s.length) nulChar, s.length⟩

/-- The zero-initialised `Log log = {0}` of `main`. -/
def log0 : Log := ⟨0, 0, 0, 0, 0, []⟩

/-- A concrete file whose copy is warranted (source stamp 200000000 ticks,
destination absent) and whose `CopyFileA` fails with `ERROR_ACCESS_DENIED`;
the fallback comparison fails too because the destination cannot be opened. -/
def fileF : FileData := ⟨some 200000000, none, false, ERROR_ACCESS_DENIED, some [1], none⟩

/-- A directory whose `CreateDirectoryA` on the destination side fails with
`ERROR_ACCESS_DENIED` (not `ERROR_PATH_NOT_FOUND`), containing one file. -/
def deniedSub : DirNode :=
  DirNode.mk ERROR_ACCESS_DENIED
    (some (EntryList.cons (FindData.mk false ['f'] fileF (DirNode.mk 0 none)) EntryList.nil))

/-- A root directory (creation succeeds) whose only child is the folder with
the denied destination creation. -/
def deniedTree : DirNode :=
  DirNode.mk 0
    (some (EntryList.cons (FindData.mk true ['B'] fileF deniedSub) EntryList.nil))


mutual
/-- Fuel `sizeD node` always suffices: the step-indexed walk finishes and
agrees with the recursive walk. -/
theorem walkDirF_complete : ∀ (node : DirNode) (n : Nat), sizeD node ≤ n →
    ∀ src dst log, walkDirF n node src dst log =
      some (BackupDirectoryRecursively node src dst log)
  | .mk c listing, 0, h, src, dst, log => by
      cases listing <;> simp [sizeD] at h
  | .mk c none, n + 1, h, src, dst, log => by
      simp only [walkDirF, BackupDirectoryRecursively]
      split <;> rfl
  | .mk c (some entries), n + 1, h, src, dst, log => by
      have h' : sizeE entries ≤ n := by
        simp only [sizeD] at h; omega
      simp only [walkDirF, BackupDirectoryRecursively,
        walkEntriesF_complete entries n h']
      split <;> rfl

/-- Fuel `sizeE l` always suffices for the entry loop. -/
theorem walkEntriesF_complete : ∀ (l : EntryList) (n : Nat), sizeE l ≤ n →
    ∀ src dst log, walkEntriesF n l src dst log = some (walkEntries l src dst log)
  | l, 0, h, src, dst, log => by
      cases l <;> simp [sizeE] at h
  | .nil, n + 1, h, src, dst, log => by
      simp only [walkEntriesF, walkEntries]
  | .cons (.mk is_directory cFileName fdata sub) rest, n + 1, h, src, dst, log => by
      have hsub : sizeD sub ≤ n := by
        simp only [sizeE, sizeF] at h; omega
      have hrest : sizeE rest ≤ n := by
        simp only [sizeE, sizeF] at h; omega
      simp only [walkEntriesF, walkEntries]
      split
      · exact walkEntriesF_complete rest n hrest src dst log
      · cases is_directory with
        | false =>
            simp only [Bool.false_eq_true, if_false]
            exact walkEntriesF_complete rest n hrest _ _ _
        | true =>
            simp only [if_true]
            rw [walkDirF_complete sub n hsub]
            exact walkEntriesF_complete rest n hrest _ _ _
end

/-- The file branch preserves the counter chain, in particular through the
`should_copy_count--` of the fallback reconciliation. -/
theorem processFile_statsInv (f : FileData) (src dst : Path) (log : Log)
    (h : StatsInv log) : StatsInv (processFile f src dst log) := by
  obtain ⟨h1, h2⟩ := h
  unfold processFile
  split_ifs <;> exact ⟨by simpa using by omega, by simpa using by omega⟩

mutual
/-- The walk preserves the counter chain. -/
theorem backupDir_statsInv : ∀ (node : DirNode) (src dst : Path) (log : Log),
    StatsInv log → StatsInv (BackupDirectoryRecursively node src dst log).2.2
  | .mk c none, src, dst, log, h => by
      simp only [BackupDirectoryRecursively]
      split
      · exact h
      · exact h
  | .mk c (some entries), src, dst, log, h => by
      simp only [BackupDirectoryRecursively]
      split
      · exact h
      · exact walkEntries_statsInv entries _ _ log h

/-- The entry loop preserves the counter chain, so the chain holds at the
start of every child-entry iteration. -/
theorem walkEntries_statsInv : ∀ (l : EntryList) (src dst : Path) (log : Log),
    StatsInv log → StatsInv (walkEntries l src dst log).2.2
  | .nil, src, dst, log, h => h
  | .cons (.mk is_directory cFileName fdata sub) rest, src, dst, log, h => by
      simp only [walkEntries]
      split
      · exact walkEntries_statsInv rest _ _ _ h
      · cases is_directory with
        | false =>
            simp only [Bool.false_eq_true, if_false]
            exact walkEntries_statsInv rest _ _ _ (processFile_statsInv _ _ _ _ h)
        | true =>
            simp only [if_true]
            exact walkEntries_statsInv rest _ _ _ (backupDir_statsInv sub _ _ _ h)
end

/-- For chunk-wise comparison of equal-length byte lists, success is exactly
list equality. -/
theorem chunkCompare_eq_iff (s d : List Nat) (h : s.length = d.length) :
    chunkCompare s d = true ↔ s = d := by
  rw [chunkCompare]
  split_ifs with h1 h2 h3
  · exact absurd (by simp [List.length_take, h]) h1
  · simp only [false_iff]
    intro he
    exact h2 (by rw [he])
  · have hlen : (s.drop GLOBAL_BUFFER_SIZE).length = (d.drop GLOBAL_BUFFER_SIZE).length := by
      simp [List.length_drop, h]
    rw [chunkCompare_eq_iff _ _ hlen]
    have htake : s.take GLOBAL_BUFFER_SIZE = d.take GLOBAL_BUFFER_SIZE := not_not.mp h2
    constructor
    · intro hdrop
      calc s = s.take GLOBAL_BUFFER_SIZE ++ s.drop GLOBAL_BUFFER_SIZE :=
            (List.take_append_drop _ _).symm
        _ = d.take GLOBAL_BUFFER_SIZE ++ d.drop GLOBAL_BUFFER_SIZE := by rw [htake, hdrop]
        _ = d := List.take_append_drop _ _
    · intro he
      rw [he]
  · have h3' : s.length = 0 := by
      simp only [List.length_take, lt_min_iff, GLOBAL_BUFFER_SIZE] at h3
      omega
    have hs : s = [] := List.eq_nil_of_length_eq_zero h3'
    have hd : d = [] := List.eq_nil_of_length_eq_zero (by omega)
    simp [hs, hd]
termination_by s.length
decreasing_by
  simp only [List.length_take, lt_min_iff, GLOBAL_BUFFER_SIZE] at h3
  simp only [List.length_drop, GLOBAL_BUFFER_SIZE]
  omega

/-- Setting a byte to NUL makes reading that index (with NUL default) NUL,
whether or not the index is in range. -/
theorem getD_set_nulChar (l : List Char) (i : Nat) :
    (l.set i nulChar).getD i nulChar = nulChar := by
  rcases Nat.lt_or_ge i l.length with h | h
  · simp [List.getD, List.getElem?_set_self', List.getElem?_eq_getElem h]
  · simp [List.set_eq_of_length_le h, List.getD, List.getElem?_eq_none h]

/-- Setting one index leaves reads at other indices unchanged. -/
theorem getD_set_ne (l : List Char) (i j : Nat) (c : Char) (h : i ≠ j) :
    (l.set i c).getD j nulChar = l.getD j nulChar := by
  simp [List.getD, List.getElem?_set_ne h]

/-- `Path_PushToPath` never moves `top` beyond `MAX_PATH`. -/
theorem pushToPath_top_le (p : Path) (l : List Char) (h : p.top ≤ MAX_PATH) :
    (Path_PushToPath p l).top ≤ MAX_PATH := by
  induction l generalizing p with
  | nil => exact h
  | cons c rest ih =>
      rw [Path_PushToPath]
      split_ifs with hc htop
      · exact h
      · exact ih ⟨p.path.set p.top c, p.top + 1⟩ htop
      · exact h

/-- `Path_PushToPath` only ever increases `top`. -/
theorem pushToPath_top_ge (p : Path) (l : List Char) : p.top ≤ (Path_PushToPath p l).top := by
  induction l generalizing p with
  | nil => exact Nat.le_refl _
  | cons c rest ih =>
      rw [Path_PushToPath]
      split_ifs with hc htop
      · exact Nat.le_refl _
      · exact Nat.le_trans (Nat.le_succ _) (ih ⟨p.path.set p.top c, p.top + 1⟩)
      · exact Nat.le_refl _

/-- `Path_PushToPath` preserves the buffer length. -/
theorem pushToPath_length (p : Path) (l : List Char) :
    (Path_PushToPath p l).path.length = p.path.length := by
  induction l generalizing p with
  | nil => rfl
  | cons c rest ih =>
      rw [Path_PushToPath]
      split_ifs with hc htop
      · rfl
      · simpa using ih ⟨p.path.set p.top c, p.top + 1⟩
      · rfl

/-- `Path_PushToPath` does not touch the bytes below the old `top`. -/
theorem pushToPath_getD_lt (p : Path) (l : List Char) (i : Nat) (h : i < p.top) :
    (Path_PushToPath p l).path.getD i nulChar = p.path.getD i nulChar := by
  induction l generalizing p with
  | nil => rfl
  | cons c rest ih =>
      rw [Path_PushToPath]
      split_ifs with hc htop
      · rfl
      · rw [ih ⟨p.path.set p.top c, p.top + 1⟩ (Nat.lt_succ_of_lt h)]
        exact getD_set_ne _ _ _ _ (by omega)
      · rfl

/-- `Path_PushToPath` does not touch any byte at an index `≥ MAX_PATH`:
all writes go to indices `0 .. MAX_PATH - 1`. -/
theorem pushToPath_getD_ge (p : Path) (l : List Char) (i : Nat) (h : MAX_PATH ≤ i) :
    (Path_PushToPath p l).path.getD i nulChar = p.path.getD i nulChar := by
  induction l generalizing p with
  | nil => rfl
  | cons c rest ih =>
      rw [Path_PushToPath]
      split_ifs with hc htop
      · rfl
      · rw [ih ⟨p.path.set p.top c, p.top + 1⟩]
        exact getD_set_ne _ _ _ _ (by omega)
      · rfl

/-- A full cursor is left untouched: every character is dropped. -/
theorem pushToPath_full (p : Path) (l : List Char) (h : p.top = MAX_PATH) :
    Path_PushToPath p l = p := by
  cases l with
  | nil => rfl
  | cons c rest =>
      rw [Path_PushToPath]
      split_ifs with hc htop
      · rfl
      · omega
      · rfl

/-- `Path_PushToPath` preserves the NUL-tail invariant. -/
theorem pushToPath_pathInv (p : Path) (l : List Char) (hp : PathInv p) :
    PathInv (Path_PushToPath p l) := by
  induction l generalizing p with
  | nil => exact hp
  | cons c rest ih =>
      rw [Path_PushToPath]
      split_ifs with hc htop
      · exact hp
      · refine ih ⟨p.path.set p.top c, p.top + 1⟩
          ⟨by simpa using hp.1, by show p.top + 1 ≤ MAX_PATH; omega, ?_⟩
        intro i hi htop'
        have htop'' : p.top + 1 ≤ i := htop'
        rw [show Path.path ⟨p.path.set p.top c, p.top + 1⟩ = p.path.set p.top c from rfl,
          getD_set_ne _ _ _ _ (by omega)]
        exact hp.2.2 i hi (by omega)
      · exact hp

/-- The scan-down loop never moves the index up. -/
theorem popLoop_snd_le (buf : List Char) (t : Nat) : (popLoop buf t).2 ≤ t := by
  induction t generalizing buf with
  | zero => exact Nat.le_refl _
  | succ t ih =>
      rw [popLoop]
      split_ifs with hch
      · exact Nat.le_trans (ih _) (Nat.le_succ _)
      · exact Nat.le_refl _

/-- The scan-down loop preserves the buffer length. -/
theorem popLoop_length (buf : List Char) (t : Nat) : (popLoop buf t).1.length = buf.length := by
  induction t generalizing buf with
  | zero => rfl
  | succ t ih =>
      rw [popLoop]
      split_ifs with hch
      · simpa using ih (buf.set (t + 1) nulChar)
      · rfl

/-- The scan-down loop does not touch bytes above its starting index. -/
theorem popLoop_getD_gt (buf : List Char) (t i : Nat) (h : t < i) :
    (popLoop buf t).1.getD i nulChar = buf.getD i nulChar := by
  induction t generalizing buf with
  | zero => rfl
  | succ t ih =>
      rw [popLoop]
      split_ifs with hch
      · rw [ih _ (by omega)]
        exact getD_set_ne _ _ _ _ (by omega)
      · rfl

/-- Every byte strictly between the final index and the starting index of the
scan-down loop has been cleared to NUL. -/
theorem popLoop_getD_cleared (buf : List Char) (t i : Nat)
    (h1 : (popLoop buf t).2 < i) (h2 : i ≤ t) :
    (popLoop buf t).1.getD i nulChar = nulChar := by
  induction t generalizing buf with
  | zero => omega
  | succ t ih =>
      rw [popLoop] at h1 ⊢
      split_ifs with hch
      · rw [if_pos hch] at h1
        rcases Nat.lt_or_ge i (t + 1) with hi | hi
        · exact ih _ h1 (by omega)
        · have hieq : i = t + 1 := by omega
          subst hieq
          rw [popLoop_getD_gt _ _ _ (by omega)]
          exact getD_set_nulChar _ _
      · rw [if_neg hch] at h1
        omega

/-- `Path_PopFullDir` preserves the NUL-tail invariant (for a cursor whose
`top` is at least 1, so that the C `top--` stays non-negative). -/
theorem popFullDir_pathInv (p : Path) (hp : PathInv p) (h1 : 1 ≤ p.top) :
    PathInv (Path_PopFullDir p) := by
  have hsnd := popLoop_snd_le p.path (p.top - 1)
  have hmax := hp.2.1
  refine ⟨?_, ?_, ?_⟩
  · show ((popLoop p.path (p.top - 1)).1.set (popLoop p.path (p.top - 1)).2 nulChar).length =
      MAX_PATH
    simpa [hp.1] using popLoop_length p.path (p.top - 1)
  · show (popLoop p.path (p.top - 1)).2 ≤ MAX_PATH
    omega
  intro i hi htop'
  have htop2 : (popLoop p.path (p.top - 1)).2 ≤ i := htop'
  show ((popLoop p.path (p.top - 1)).1.set (popLoop p.path (p.top - 1)).2 nulChar).getD i
      nulChar = nulChar
  rcases Nat.lt_or_ge (popLoop p.path (p.top - 1)).2 i with hgt | hge
  · rw [getD_set_ne _ _ _ _ (by omega)]
    rcases Nat.lt_or_ge (p.top - 1) i with hup | hdown
    · rw [popLoop_getD_gt _ _ _ hup]
      exact hp.2.2 i hi (by omega)
    · exact popLoop_getD_cleared _ _ _ hgt hdown
  · have heq : i = (popLoop p.path (p.top - 1)).2 := by omega
    rw [heq]
    exact getD_set_nulChar _ _

/-- `Path_PopLastName` preserves the NUL-tail invariant (for a cursor whose
`top` is at least 1). -/
theorem popLastName_pathInv (p : Path) (hp : PathInv p) (h1 : 1 ≤ p.top) :
    PathInv (Path_PopLastName p) := by
  have hsnd := popLoop_snd_le p.path (p.top - 1)
  have hmax := hp.2.1
  refine ⟨?_, ?_, ?_⟩
  · show (popLoop p.path (p.top - 1)).1.length = MAX_PATH
    simpa [hp.1] using popLoop_length p.path (p.top - 1)
  · show (popLoop p.path (p.top - 1)).2 + 1 ≤ MAX_PATH
    omega
  intro i hi htop'
  have htop2 : (popLoop p.path (p.top - 1)).2 + 1 ≤ i := htop'
  show (popLoop p.path (p.top - 1)).1.getD i nulChar = nulChar
  rcases Nat.lt_or_ge (p.top - 1) i with hup | hdown
  · rw [popLoop_getD_gt _ _ _ hup]
    exact hp.2.2 i hi (by omega)
  · exact popLoop_getD_cleared _ _ _ (by omega) hdown

/-- The copy loop of `Path_PushSourceToDestination` preserves the NUL-tail
invariant of the destination cursor. -/
theorem copyFromSourceLoop_pathInv (srcbuf : List Char) (k i : Nat) (dst : Path)
    (hd : PathInv dst) : PathInv (copyFromSourceLoop srcbuf k i dst) := by
  induction k generalizing i dst with
  | zero => exact hd
  | succ k ih =>
      rw [copyFromSourceLoop]
      split_ifs with htop
      · refine ih _ _
          ⟨by simpa using hd.1, by show dst.top + 1 ≤ MAX_PATH; omega, ?_⟩
        intro j hj htop'
        have htop2 : dst.top + 1 ≤ j := htop'
        rw [show Path.path ⟨dst.path.set dst.top (srcbuf.getD i nulChar), dst.top + 1⟩ =
            dst.path.set dst.top (srcbuf.getD i nulChar) from rfl,
          getD_set_ne _ _ _ _ (by omega)]
        exact hd.2.2 j hj (by omega)
      · exact hd

/-- `Path_PushSourceToDestination` preserves the NUL-tail invariant of the
destination cursor (the source cursor is read-only). -/
theorem pushSourceToDestination_pathInv (src dst : Path) (hd : PathInv dst) :
    PathInv (Path_PushSourceToDestination src dst) :=
  copyFromSourceLoop_pathInv _ _ _ _ hd

/-- Claim C1 (refuted by evaluation): the claim states that on both early
error-return paths the cursors equal their entry values byte-for-byte.  On
the destination-directory-creation failure path this is false: entering with
source cursor `a\b` and destination cursor `c\d`, the walk returns cursors
`a` and `c` — `Path_PopFullDir` has removed the last component that this
level never pushed, so the caller's path state is corrupted for the
remaining siblings (the paired pop for the `"\*"` push exists only on the
other two paths). -/
theorem claim1_create_failure_not_restored :
    (BackupDirectoryRecursively (DirNode.mk ERROR_PATH_NOT_FOUND none)
        (mkPath ['a', '\\', 'b']) (mkPath ['c', '\\', 'd']) log0).1 = mkPath ['a'] ∧
    (BackupDirectoryRecursively (DirNode.mk ERROR_PATH_NOT_FOUND none)
        (mkPath ['a', '\\', 'b']) (mkPath ['c', '\\', 'd']) log0).2.1 = mkPath ['c'] ∧
    mkPath ['a'] ≠ mkPath ['a', '\\', 'b'] ∧ mkPath ['c'] ≠ mkPath ['c', '\\', 'd'] :=
  ⟨by rfl, by rfl, by decide, by decide⟩

/-- Claim C2: `ShouldCopy` decides a copy exactly when the absolute
difference of the two last-write timestamps strictly exceeds the fixed
threshold of 100000000 FILETIME ticks (10 seconds); a difference of exactly
the threshold yields no copy and threshold + 1 yields a copy. -/
theorem claim2_shouldCopy_strict_threshold :
    ∀ src_ft dst_ft : Nat,
      (ShouldCopy src_ft dst_ft = true ↔
        100000000 < ((src_ft : Int) - (dst_ft : Int)).natAbs) ∧
      ShouldCopy src_ft (src_ft + 100000000) = false ∧
      ShouldCopy src_ft (src_ft + 100000001) = true := by
  intro s d
  refine ⟨?_, ?_, ?_⟩ <;> simp only [ShouldCopy] <;> split_ifs <;>
    simp_all <;> omega

/-- Claim C3: the counter chain
`copy_success_count ≤ should_copy_count ≤ files_checked_count` is preserved
by the whole walk (hence holds in the final run statistics, which start from
the zeroed log) and by every suffix of the entry loop (hence holds at the
start of each child-entry iteration); the `should_copy_count--` of fallback
reconciliation never breaks it. -/
theorem claim3_counter_chain :
    (∀ (node : DirNode) (src dst : Path) (log : Log),
        StatsInv log → StatsInv (BackupDirectoryRecursively node src dst log).2.2) ∧
    (∀ (l : EntryList) (src dst : Path) (log : Log),
        StatsInv log → StatsInv (walkEntries l src dst log).2.2) :=
  ⟨backupDir_statsInv, walkEntries_statsInv⟩

/-- Witness for C3 at a concrete run from the zeroed log. -/
theorem claim3_counter_chain_witness :
    StatsInv (BackupDirectoryRecursively deniedTree (mkPath ['a']) (mkPath ['c']) log0).2.2 :=
  claim3_counter_chain.1 deniedTree (mkPath ['a']) (mkPath ['c']) log0
    (by constructor <;> decide)

/-- Claim C4: for a file whose copy is warranted but whose `CopyFileA`
fails, the fallback decides: identical contents undo the
`should_copy_count` increment and add neither an error nor a log line;
differing or unopenable contents add exactly one error and exactly one log
line carrying the copy failure's `GetLastError` reason and the source
path. -/
theorem claim4_fallback_reconciliation (f : FileData) (src dst : Path) (log : Log)
    (h1 : ShouldCopyFS f.srcTs f.dstTs = true) (h2 : f.copyOk = false) :
    (FileContentsAreTheSame f.srcContent f.dstContent = true →
      (processFile f src dst log).should_copy_count = log.should_copy_count ∧
      (processFile f src dst log).error_count = log.error_count ∧
      (processFile f src dst log).messages = log.messages) ∧
    (FileContentsAreTheSame f.srcContent f.dstContent = false →
      (processFile f src dst log).error_count = log.error_count + 1 ∧
      (processFile f src dst log).messages =
        log.messages ++ [LogMsg.copyError f.copyLastError (pathCString src)]) := by
  constructor <;> intro hsame <;>
    simp [processFile, h1, h2, hsame]

/-- Witness for C4: a concrete warranted-but-failed copy with an unopenable
destination counts exactly one error. -/
theorem claim4_fallback_reconciliation_witness :
    (processFile fileF (mkPath ['a']) (mkPath ['c']) log0).error_count =
      log0.error_count + 1 :=
  ((claim4_fallback_reconciliation fileF (mkPath ['a']) (mkPath ['c']) log0
    (by decide) rfl).2 (by decide)).1

/-- Claim C5 (counterexample): the claim states a missing destination file is
copied for every source timestamp; but a source whose last-write time is at
most the threshold above the FILETIME epoch is not copied — at source
timestamp 100000000 (and 0) the decision is false. -/
theorem claim5_counterexample_small_source_timestamp :
    ShouldCopyFS (some 100000000) none = false ∧ ShouldCopyFS (some 0) none = false := by
  decide

/-- Claim C5 (amended): a missing destination file is treated exactly as
timestamp zero, and is copied if and only if the source timestamp strictly
exceeds the 100000000-tick threshold (so any source written more than 10
seconds after the FILETIME epoch — every realistic timestamp — is copied). -/
theorem claim5_missing_destination_as_zero :
    ∀ t : Nat,
      ShouldCopyFS (some t) none = ShouldCopyFS (some t) (some 0) ∧
      (ShouldCopyFS (some t) none = true ↔ 100000000 < t) := by
  intro t
  refine ⟨rfl, ?_⟩
  simp only [ShouldCopyFS, timestampOrZero, ShouldCopy]
  split_ifs <;> simp_all

/-- Claim C6 (counterexample): the claim states a nested folder whose
destination-directory creation fails with access-denied contributes 0 to
`files_checked_count` and 1 to `error_count`.  In the code the subtree-skip
branch only triggers on `ERROR_PATH_NOT_FOUND`; on `ERROR_ACCESS_DENIED` the
walk descends into the folder, so its file IS checked:
`files_checked_count` ends at 1, not 0 (the single error comes from the
file's failed copy, not from the directory skip). -/
theorem claim6_counterexample_access_denied_descends :
    (BackupDirectoryRecursively deniedTree (mkPath ['a'])
        (mkPath ['c']) log0).2.2.files_checked_count = 1 ∧
    (BackupDirectoryRecursively deniedTree (mkPath ['a'])
        (mkPath ['c']) log0).2.2.files_checked_count ≠ 0 ∧
    (BackupDirectoryRecursively deniedTree (mkPath ['a'])
        (mkPath ['c']) log0).2.2.error_count = 1 := by
  refine ⟨by rfl, ?_, by rfl⟩
  rw [show (BackupDirectoryRecursively deniedTree (mkPath ['a'])
      (mkPath ['c']) log0).2.2.files_checked_count = 1 from by rfl]
  decide

/-- Claim C6 (amended): if destination-directory creation for a nested
folder fails with `ERROR_PATH_NOT_FOUND` (the only creation-failure code the
walker treats as a skip), the folder and all its descendants contribute
nothing to `files_checked_count`, `folders_checked_count`,
`should_copy_count` and `copy_success_count`, and exactly 1 to
`error_count`; and the entry loop carries on with the remaining sibling
entries from that state. -/
theorem claim6_path_not_found_skips_subtree (listing : Option EntryList)
    (src dst : Path) (log : Log) :
    ((BackupDirectoryRecursively (DirNode.mk ERROR_PATH_NOT_FOUND listing)
        src dst log).2.2.files_checked_count = log.files_checked_count ∧
      (BackupDirectoryRecursively (DirNode.mk ERROR_PATH_NOT_FOUND listing)
        src dst log).2.2.folders_checked_count = log.folders_checked_count ∧
      (BackupDirectoryRecursively (DirNode.mk ERROR_PATH_NOT_FOUND listing)
        src dst log).2.2.should_copy_count = log.should_copy_count ∧
      (BackupDirectoryRecursively (DirNode.mk ERROR_PATH_NOT_FOUND listing)
        src dst log).2.2.copy_success_count = log.copy_success_count ∧
      (BackupDirectoryRecursively (DirNode.mk ERROR_PATH_NOT_FOUND listing)
        src dst log).2.2.error_count = log.error_count + 1) ∧
    (∀ (fdata : FileData) (rest : EntryList) (name : List Char),
      ¬ (name = ['.'] ∨ name = ['.', '.']) →
      walkEntries (EntryList.cons
          (FindData.mk true name fdata (DirNode.mk ERROR_PATH_NOT_FOUND listing)) rest)
          src dst log =
        walkEntries rest
          (Path_PopFullDir (Path_PushToPath (Path_PopLastName src) name))
          (Path_PopFullDir (Path_PushToPath (Path_PopLastName dst) name))
          { log with
            error_count := log.error_count + 1,
            messages := log.messages ++
              [LogMsg.createDirError
                (pathCString (Path_PushToPath (Path_PopLastName dst) name))] }) := by
  constructor
  · exact ⟨rfl, rfl, rfl, rfl, rfl⟩
  · intro fdata rest name hname
    simp only [walkEntries, if_neg hname, if_true]
    rfl

/-- Witness for C6 at a concrete sibling list: after the path-not-found
folder, the loop continues and the run records exactly its one error. -/
theorem claim6_path_not_found_skips_subtree_witness :
    walkEntries (EntryList.cons
        (FindData.mk true ['B'] fileF (DirNode.mk ERROR_PATH_NOT_FOUND none)) EntryList.nil)
        (mkPath ['a', '\\', 'x']) (mkPath ['c', '\\', 'x']) log0 =
      walkEntries EntryList.nil
        (Path_PopFullDir (Path_PushToPath (Path_PopLastName (mkPath ['a', '\\', 'x'])) ['B']))
        (Path_PopFullDir (Path_PushToPath (Path_PopLastName (mkPath ['c', '\\', 'x'])) ['B']))
        { log0 with
          error_count := log0.error_count + 1,
          messages := log0.messages ++
            [LogMsg.createDirError
              (pathCString (Path_PushToPath (Path_PopLastName (mkPath ['c', '\\', 'x'])) ['B']))] } :=
  (claim6_path_not_found_skips_subtree none (mkPath ['a', '\\', 'x'])
    (mkPath ['c', '\\', 'x']) log0).2 fileF EntryList.nil ['B'] (by decide)

/-- Claim C7: the fallback comparison succeeds exactly when both files open
and their byte contents are equal; it fails whenever either open fails,
whenever the sizes differ, and at the first differing chunk. -/
theorem claim7_fileContentsAreTheSame_iff :
    ∀ src dst : Option (List Nat),
      FileContentsAreTheSame src dst = true ↔ ∃ s, src = some s ∧ dst = some s := by
  intro src dst
  match src, dst with
  | none, _ => simp [FileContentsAreTheSame]
  | some s, none => simp [FileContentsAreTheSame]
  | some s, some d =>
      simp only [FileContentsAreTheSame]
      split_ifs with h
      · simp only [false_iff]
        rintro ⟨s', hs, hd⟩
        cases hs
        cases hd
        exact h rfl
      · rw [chunkCompare_eq_iff s d (not_ne_iff.mp h)]
        constructor
        · rintro rfl
          exact ⟨s, rfl, rfl⟩
        · rintro ⟨s', hs, hd⟩
          cases hs
          cases hd
          rfl

/-- Claim C8: for every finite source tree — with any combination of
directory-creation, directory-listing and copy failures — the walk
terminates: some finite fuel makes the step-indexed walk finish, with the
final statistics of the recursive walk. -/
theorem claim8_walk_terminates :
    ∀ (node : DirNode) (src dst : Path) (log : Log),
      ∃ n : Nat, walkDirF n node src dst log =
        some (BackupDirectoryRecursively node src dst log) :=
  fun node src dst log =>
    ⟨sizeD node, walkDirF_complete node (sizeD node) (Nat.le_refl _) src dst log⟩

/-- Claim C9: `Path_PushToPath` appends only while `top < MAX_PATH`: it
keeps `top ≤ MAX_PATH`, leaves the first old-`top` bytes unchanged, writes
no byte at an index `≥ MAX_PATH`, and on a full cursor drops everything
without error (it is total). -/
theorem claim9_pushToPath_capacity_clamp (p : Path) (l : List Char)
    (h : p.top ≤ MAX_PATH) :
    (Path_PushToPath p l).top ≤ MAX_PATH ∧
    (∀ i, i < p.top → (Path_PushToPath p l).path.getD i nulChar = p.path.getD i nulChar) ∧
    (∀ i, MAX_PATH ≤ i → (Path_PushToPath p l).path.getD i nulChar = p.path.getD i nulChar) ∧
    (p.top = MAX_PATH → Path_PushToPath p l = p) :=
  ⟨pushToPath_top_le p l h, fun i hi => pushToPath_getD_lt p l i hi,
    fun i hi => pushToPath_getD_ge p l i hi, fun hf => pushToPath_full p l hf⟩

/-- Witness for C9 at a concrete cursor and segment. -/
theorem claim9_pushToPath_capacity_clamp_witness :
    (Path_PushToPath (mkPath ['a']) ['\\', 'b']).top ≤ MAX_PATH :=
  (claim9_pushToPath_capacity_clamp (mkPath ['a']) ['\\', 'b'] (by decide)).1

/-- Claim C10: all four cursor operations preserve the invariant that every
buffer byte at an index in `[top, MAX_PATH)` is NUL (the pop operations
under the precondition `1 ≤ top`); consequently, whenever `top < MAX_PATH`
the byte at `top` is NUL, i.e. the buffer is a NUL-terminated C string of
the current path. -/
theorem claim10_nul_tail_invariant :
    (∀ (p : Path) (l : List Char), PathInv p → PathInv (Path_PushToPath p l)) ∧
    (∀ p : Path, PathInv p → 1 ≤ p.top → PathInv (Path_PopFullDir p)) ∧
    (∀ p : Path, PathInv p → 1 ≤ p.top → PathInv (Path_PopLastName p)) ∧
    (∀ src dst : Path, PathInv dst → PathInv (Path_PushSourceToDestination src dst)) ∧
    (∀ p : Path, PathInv p → p.top < MAX_PATH → p.path.getD p.top nulChar = nulChar) :=
  ⟨fun p l hp => pushToPath_pathInv p l hp,
    fun p hp h1 => popFullDir_pathInv p hp h1,
    fun p hp h1 => popLastName_pathInv p hp h1,
    fun src dst hd => pushSourceToDestination_pathInv src dst hd,
    fun p hp hlt => hp.2.2 p.top hlt (Nat.le_refl _)⟩

/-- Witness for C10 at a concrete cursor. -/
theorem claim10_nul_tail_invariant_witness :
    PathInv (Path_PopFullDir (mkPath ['a', '\\', 'b'])) :=
  claim10_nul_tail_invariant.2.1 (mkPath ['a', '\\', 'b'])
    ⟨by decide, by decide, by decide⟩ (by decide)

end Backup
